import Mathlib

/-!
Shallow embedding of the uptime-ping health-check engine
(src/monitor.py, src/storage.py, src/main.py, src/notifier.py).

Modelling conventions:
* Points in time (datetime.utcnow values) are integers counting seconds
  since the epoch; a calendar date is the integer day index, with
  dateOf t = t.fdiv 86400 embedding Python .date() on a UTC datetime.
  datetime.isoformat and fromisoformat form an order-preserving bijection
  between datetimes and the stored strings, so a stored timestamp is
  modelled by the timestamp itself.
* Latencies (Python floats) are rationals; Python round(x, 2) is the
  half-to-even rounding round2 below.
* The daily-partitioned jsonl directory is an association list from day
  index to the list of records appended to that day's file, in file order.
* The HTTP world is an explicit parameter: each probe receives a
  ProbeOutcome describing how the request completed (response, timeout,
  or other transport failure), with the elapsed wall-clock milliseconds.
-/

namespace UptimePing

/-- monitor.Status: the health classification enum; value is the JSON string. -/
inductive Status where
  | up
  | down
  | degraded
deriving DecidableEq

def Status.value : Status → String
  | .up => "up"
  | .down => "down"
  | .degraded => "degraded"

/-- monitor.CheckResult dataclass. -/
structure CheckResult where
  url : String
  status : Status
  status_code : Option ℤ
  response_time_ms : ℚ
  error : Option String
  checked_at : ℤ
deriving DecidableEq

/-- monitor.Endpoint dataclass. -/
structure Endpoint where
  url : String
  name : Option String
  expected_status : ℤ
  timeout_ms : ℤ
  degraded_threshold_ms : ℤ
deriving DecidableEq

/-- How one HTTP GET finished: a completed response with a status code,
a timeout (httpx.TimeoutException), or another transport failure whose
str(e) is the given message. In each case elapsed_ms is the measured
wall-clock time in milliseconds. -/
inductive ProbeOutcome where
  | response (status_code : ℤ) (elapsed_ms : ℚ)
  | timeout (elapsed_ms : ℚ)
  | failure (message : String) (elapsed_ms : ℚ)
deriving DecidableEq

/-- Python round half to even, to an integer. -/
def roundHalfEven (x : ℚ) : ℤ :=
  let n := ⌊x⌋
  let frac := x - n
  if frac < 1/2 then n
  else if 1/2 < frac then n + 1
  else if n % 2 = 0 then n else n + 1

/-- Python round(x, 2). -/
def round2 (x : ℚ) : ℚ := (roundHalfEven (x * 100) : ℚ) / 100

/-- monitor.check_endpoint: classify one probe of one endpoint. The outcome
of the HTTP request and the clock reading for checked_at are explicit
parameters. -/
def check_endpoint (endpoint : Endpoint) (outcome : ProbeOutcome) (now : ℤ) :
    CheckResult :=
  match outcome with
  | .response code elapsed_ms =>
      let status : Status :=
        if code = endpoint.expected_status then
          if elapsed_ms > (endpoint.degraded_threshold_ms : ℚ) then .degraded
          else .up
        else .down
      { url := endpoint.url
        status := status
        status_code := some code
        response_time_ms := round2 elapsed_ms
        error :=
          if status ≠ Status.down then none
          else some ("Expected " ++ toString endpoint.expected_status ++
            ", got " ++ toString code)
        checked_at := now }
  | .timeout elapsed_ms =>
      { url := endpoint.url
        status := .down
        status_code := none
        response_time_ms := round2 elapsed_ms
        error := some "Timeout"
        checked_at := now }
  | .failure msg elapsed_ms =>
      { url := endpoint.url
        status := .down
        status_code := none
        response_time_ms := round2 elapsed_ms
        error := some msg
        checked_at := now }

/-- monitor.check_all: probe every endpoint; asyncio.gather returns the
results in task order, i.e. in the order of the endpoint list. world gives
the outcome of the probe launched for position i. -/
def check_all (endpoints : List Endpoint) (world : ℕ → ProbeOutcome) (now : ℤ) :
    List CheckResult :=
  (List.range endpoints.length).zipWith
    (fun i ep => check_endpoint ep (world i) now) endpoints

/-! ### storage.py -/

/-- Python .date() on a UTC datetime: the day index of a timestamp
(floor division, as Python // on the underlying seconds). -/
def dateOf (t : ℤ) : ℤ := t.fdiv 86400

/-- One line of a checks jsonl file: the dict written by save_check.
status is the JSON string; checked_at is the parsed isoformat string. -/
structure StoredCheck where
  url : String
  status : String
  status_code : Option ℤ
  response_time_ms : ℚ
  error : Option String
  checked_at : ℤ
deriving DecidableEq

/-- A daily-partitioned jsonl directory: day index to file contents in
file order. -/
abbrev PartStore (α : Type) : Type := List (ℤ × List α)

/-- Reading a partition file: a missing file is the empty list
(load_checks_for_date returns [] when the filepath does not exist). -/
def store_lookup {α : Type} : PartStore α → ℤ → List α
  | [], _ => []
  | (k, cs) :: rest, d => if k = d then cs else store_lookup rest d

/-- Appending one record to a partition file (open(..., a) then write):
the record goes to the end of the named file, other files untouched. -/
def store_append {α : Type} : PartStore α → ℤ → α → PartStore α
  | [], d, x => [(d, [x])]
  | (k, cs) :: rest, d, x =>
      if k = d then (k, cs ++ [x]) :: rest
      else (k, cs) :: store_append rest d x

/-- The record dict that save_check serializes from a CheckResult. -/
def serialize_check (r : CheckResult) : StoredCheck :=
  { url := r.url
    status := r.status.value
    status_code := r.status_code
    response_time_ms := r.response_time_ms
    error := r.error
    checked_at := r.checked_at }

/-- storage.save_check: append the serialized record to the file named by
date.today() at the moment of saving (the today parameter). -/
def save_check (today : ℤ) (store : PartStore StoredCheck) (result : CheckResult) :
    PartStore StoredCheck :=
  store_append store today (serialize_check result)

/-- storage.save_checks: save_check each result in order. -/
def save_checks (today : ℤ) (store : PartStore StoredCheck)
    (results : List CheckResult) : PartStore StoredCheck :=
  results.foldl (save_check today) store

/-- storage.load_checks_for_date: all records of one day's file, [] when
the file is missing. -/
def load_checks_for_date (store : PartStore StoredCheck) (d : ℤ) :
    List StoredCheck :=
  store_lookup store d

/-- Sort key order used by load_recent_checks: the Python sort is by the
checked_at isoformat string with reverse=True, and isoformat is an
order-preserving bijection, so this is descending timestamp. -/
def laterEq (a b : StoredCheck) : Prop := b.checked_at ≤ a.checked_at

instance : DecidableRel laterEq := fun a b => Int.decLe b.checked_at a.checked_at

instance : IsTotal StoredCheck laterEq :=
  ⟨fun a b => le_total b.checked_at a.checked_at⟩

instance : IsTrans StoredCheck laterEq :=
  ⟨fun _ _ _ h h2 => le_trans h2 h⟩

/-- storage.load_recent_checks: collect today's and yesterday's records
whose timestamp is at least now minus hours, then sort descending by
timestamp (Python sorted is a stable sort; so is insertionSort). The
range(2) loop is unrolled: days_ago = 0 then 1. -/
def load_recent_checks (store : PartStore StoredCheck) (now : ℤ) (hours : ℤ) :
    List StoredCheck :=
  let cutoff : ℤ := now - hours * 3600
  let day0 := (load_checks_for_date store (dateOf now)).filter
    (fun c => cutoff ≤ c.checked_at)
  let day1 := (load_checks_for_date store (dateOf (now - 86400))).filter
    (fun c => cutoff ≤ c.checked_at)
  List.insertionSort laterEq (day0 ++ day1)

/-- The dict returned by calculate_uptime; the zero-record branch returns
a dict without the avg_response_ms and last_check keys, modelled none. -/
structure UptimeReport where
  url : String
  uptime_pct : Option ℚ
  check_count : ℕ
  avg_response_ms : Option ℚ
  last_check : Option StoredCheck
deriving DecidableEq

/-- storage.calculate_uptime. -/
def calculate_uptime (store : PartStore StoredCheck) (now : ℤ) (url : String)
    (hours : ℤ) : UptimeReport :=
  let checks := load_recent_checks store now hours
  let url_checks := checks.filter (fun c => c.url = url)
  if url_checks.isEmpty then
    { url := url, uptime_pct := none, check_count := 0
      avg_response_ms := none, last_check := none }
  else
    let up_count := (url_checks.filter (fun c => c.status = "up")).length
    let total := url_checks.length
    let avg_response := (url_checks.map (fun c => c.response_time_ms)).sum / (total : ℚ)
    { url := url
      uptime_pct := some (round2 ((up_count : ℚ) / (total : ℚ) * 100))
      check_count := total
      avg_response_ms := some (round2 avg_response)
      last_check := url_checks.head? }

/-! ### Incident tracking (storage.py) -/

/-- One entry of the _incident_state dict. -/
structure IncidentState where
  status : String
  since : ℤ
  notified : Bool
deriving DecidableEq

/-- The _incident_state dict: url to state. -/
abbrev StateMap : Type := List (String × IncidentState)

def stateLookup : StateMap → String → Option IncidentState
  | [], _ => none
  | (k, v) :: rest, url => if k = url then some v else stateLookup rest url

/-- Python dict assignment d[url] = v: replace if present, else add. -/
def stateInsert : StateMap → String → IncidentState → StateMap
  | [], url, v => [(url, v)]
  | (k, w) :: rest, url, v =>
      if k = url then (k, v) :: rest
      else (k, w) :: stateInsert rest url v

/-- The incident dict built and persisted by track_incident. -/
structure Incident where
  url : String
  prev_status : String
  new_status : String
  changed_at : ℤ
  was_down_since : Option ℤ
  error : Option String
deriving DecidableEq

/-- storage.track_incident: returns the updated _incident_state, the
updated incidents directory (the emitted incident is appended to the file
named by date.today(), the today parameter), and the incident returned to
the caller (none when no notification is needed). -/
def track_incident (today : ℤ) (st : StateMap) (ilog : PartStore Incident)
    (result : CheckResult) : StateMap × PartStore Incident × Option Incident :=
  let url := result.url
  let current_status := result.status.value
  match stateLookup st url with
  | none =>
      (stateInsert st url
        { status := current_status, since := result.checked_at, notified := false },
       ilog, none)
  | some prev =>
      if prev.status ≠ current_status then
        let incident : Incident :=
          { url := url
            prev_status := prev.status
            new_status := current_status
            changed_at := result.checked_at
            was_down_since := if prev.status = "down" then some prev.since else none
            error := result.error }
        (stateInsert st url
          { status := current_status, since := result.checked_at, notified := true },
         store_append ilog today incident, some incident)
      else (st, ilog, none)

/-! ### main.run_checks incident loop and notifier.py

notifier.send_telegram catches every exception and returns a Bool, and
format_incident_message is total on the dict track_incident builds, so the
external notifier is modelled as a total function from the incident to the
Bool that notify_incident returns; it has no access to the stores. -/

/-- Observable side effects of the incident half of one check cycle, in
program order: the file append done inside track_incident, then the await
of notify_incident with its returned Bool. -/
inductive LogEvent where
  | persist (inc : Incident)
  | notify (inc : Incident) (ok : Bool)
deriving DecidableEq

/-- main.run_checks, incident part: the for loop over the batch. For each
result, track_incident runs (persisting any emitted incident inside), and
when it returns an incident, notify_incident is awaited on it. Returns the
final _incident_state, the final incidents directory, and the trace of
side effects in program order. -/
def run_checks_incidents (today : ℤ) (notifier : Incident → Bool) (st : StateMap)
    (ilog : PartStore Incident) : List CheckResult →
    StateMap × PartStore Incident × List LogEvent
  | [] => (st, ilog, [])
  | r :: rest =>
      match track_incident today st ilog r with
      | (st2, ilog2, none) => run_checks_incidents today notifier st2 ilog2 rest
      | (st2, ilog2, some inc) =>
          let tail := run_checks_incidents today notifier st2 ilog2 rest
          (tail.1, tail.2.1,
            LogEvent.persist inc :: LogEvent.notify inc (notifier inc) :: tail.2.2)

/-- The incidents a batch causes track_incident to emit, in order;
independent of the notifier by construction. -/
def emitted_incidents (today : ℤ) (st : StateMap) (ilog : PartStore Incident) :
    List CheckResult → List Incident
  | [] => []
  | r :: rest =>
      match track_incident today st ilog r with
      | (st2, ilog2, none) => emitted_incidents today st2 ilog2 rest
      | (st2, ilog2, some inc) => inc :: emitted_incidents today st2 ilog2 rest

/-! ### Concrete fixtures used by witnesses and counterexamples -/

/-- An endpoint with the default configuration of monitor.Endpoint. -/
def epA : Endpoint := ⟨"https://a.example", none, 200, 10000, 3000⟩

/-! ### Claims -/

/-- Claim C1: check_endpoint classifies a completed response whose status
code equals the expected status as up when elapsed latency is at most the
degraded threshold and as degraded (never up) when it exceeds the
threshold, and classifies a timed-out request as down with
status_code = none and error exactly "Timeout". -/
theorem claim1_probe_classification (ep : Endpoint) (code : ℤ) (elapsed : ℚ)
    (now : ℤ) :
    (code = ep.expected_status →
      (elapsed ≤ (ep.degraded_threshold_ms : ℚ) →
        (check_endpoint ep (.response code elapsed) now).status = Status.up)
      ∧ ((ep.degraded_threshold_ms : ℚ) < elapsed →
        (check_endpoint ep (.response code elapsed) now).status = Status.degraded
        ∧ (check_endpoint ep (.response code elapsed) now).status ≠ Status.up))
    ∧ ((check_endpoint ep (.timeout elapsed) now).status = Status.down
      ∧ (check_endpoint ep (.timeout elapsed) now).status_code = none
      ∧ (check_endpoint ep (.timeout elapsed) now).error = some "Timeout") := by
  refine ⟨fun hcode => ⟨fun hle => ?_, fun hgt => ?_⟩, by simp [check_endpoint]⟩
  · simp [check_endpoint, hcode, not_lt.2 hle]
  · simp [check_endpoint, hcode, hgt]

/-- Witness for C1 at concrete inputs: a 200 response in 50 ms against the
default endpoint is up; a 200 response in 5000 ms is degraded; a timeout
is down with error "Timeout". -/
theorem claim1_probe_classification_witness :
    ((check_endpoint epA (.response 200 50) 7).status = Status.up)
    ∧ ((check_endpoint epA (.response 200 5000) 7).status = Status.degraded
      ∧ (check_endpoint epA (.response 200 5000) 7).status ≠ Status.up)
    ∧ ((check_endpoint epA (.timeout 10000) 7).status = Status.down
      ∧ (check_endpoint epA (.timeout 10000) 7).status_code = none
      ∧ (check_endpoint epA (.timeout 10000) 7).error = some "Timeout") :=
  ⟨((claim1_probe_classification epA 200 50 7).1 (by decide)).1 (by decide),
   ((claim1_probe_classification epA 200 5000 7).1 (by decide)).2 (by decide),
   (claim1_probe_classification epA 200 10000 7).2⟩

/-- Counterexample to C2 as stated: a response matching the expected
status but slower than the degraded threshold is classified degraded (so
status is not up), yet its error field is none, contradicting error
non-null iff status not up. -/
theorem claim2_counterexample :
    (check_endpoint epA (.response 200 5000) 0).status ≠ Status.up
    ∧ (check_endpoint epA (.response 200 5000) 0).error = none := by
  decide

/-- Claim C2 amended: in every CheckResult produced by check_endpoint the
error field is non-null if and only if the status is down (degraded and up
results carry error = none). -/
theorem claim2_error_iff_down (ep : Endpoint) (outcome : ProbeOutcome) (now : ℤ) :
    (check_endpoint ep outcome now).error ≠ none
    ↔ (check_endpoint ep outcome now).status = Status.down := by
  cases outcome with
  | response code elapsed =>
      by_cases hcode : code = ep.expected_status
      · by_cases hgt : elapsed > (ep.degraded_threshold_ms : ℚ) <;>
          simp [check_endpoint, hcode, hgt]
      · simp [check_endpoint, hcode]
  | timeout elapsed => simp [check_endpoint]
  | failure msg elapsed => simp [check_endpoint]

theorem stateLookup_stateInsert (st : StateMap) (url : String) (v : IncidentState) :
    stateLookup (stateInsert st url v) url = some v := by
  induction st with
  | nil => simp [stateInsert, stateLookup]
  | cons kv rest ih =>
      obtain ⟨k, w⟩ := kv
      by_cases hk : k = url
      · simp [stateInsert, stateLookup, hk]
      · simp [stateInsert, stateLookup, hk, ih]

/-- Claim C3: the first-ever observation for a URL emits no event and
records state {status, since = result timestamp}; a result whose status
equals the tracked status emits no event and leaves everything unchanged
(so since marks the start of the current unbroken run); a result whose
status differs emits exactly one event and overwrites the tracked state
to {status of the result, since = result timestamp}. -/
theorem claim3_tracker_transitions (today : ℤ) (st : StateMap)
    (ilog : PartStore Incident) (r : CheckResult) :
    (stateLookup st r.url = none →
      (track_incident today st ilog r).2.2 = none
      ∧ stateLookup (track_incident today st ilog r).1 r.url
          = some ⟨r.status.value, r.checked_at, false⟩)
    ∧ (∀ prev : IncidentState, stateLookup st r.url = some prev →
        (prev.status = r.status.value →
          track_incident today st ilog r = (st, ilog, none))
        ∧ (prev.status ≠ r.status.value →
          (∃ inc, (track_incident today st ilog r).2.2 = some inc)
          ∧ stateLookup (track_incident today st ilog r).1 r.url
              = some ⟨r.status.value, r.checked_at, true⟩)) := by
  constructor
  · intro hnone
    simp [track_incident, hnone, stateLookup_stateInsert]
  · intro prev hprev
    constructor
    · intro heq
      simp [track_incident, hprev, heq]
    · intro hne
      refine ⟨⟨{ url := r.url, prev_status := prev.status, new_status := r.status.value,
                 changed_at := r.checked_at,
                 was_down_since := if prev.status = "down" then some prev.since else none,
                 error := r.error }, ?_⟩, ?_⟩ <;>
        simp [track_incident, hprev, hne, stateLookup_stateInsert]

/-- An up result for the default endpoint at time 100. -/
def rUp : CheckResult := ⟨"https://a.example", Status.up, some 200, 5, none, 100⟩

/-- A degraded result for the default endpoint at time 100. -/
def rDeg : CheckResult := ⟨"https://a.example", Status.degraded, some 200, 5, none, 100⟩

/-- Tracker state: the URL has been up since time 50. -/
def stUp : StateMap := [("https://a.example", ⟨"up", 50, false⟩)]

/-- Tracker state: the URL has been down since time 50. -/
def stDown : StateMap := [("https://a.example", ⟨"down", 50, false⟩)]

/-- Witness for C3 at concrete inputs: first observation on an empty
state; an up result on a state already up; an up result on a state
tracked down. -/
theorem claim3_tracker_transitions_witness :
    ((track_incident 5 [] [] rUp).2.2 = none
      ∧ stateLookup (track_incident 5 [] [] rUp).1 rUp.url = some ⟨"up", 100, false⟩)
    ∧ track_incident 5 stUp [] rUp = (stUp, [], none)
    ∧ ((∃ inc, (track_incident 5 stDown [] rUp).2.2 = some inc)
      ∧ stateLookup (track_incident 5 stDown [] rUp).1 rUp.url
          = some ⟨"up", 100, true⟩) :=
  ⟨(claim3_tracker_transitions 5 [] [] rUp).1 rfl,
   ((claim3_tracker_transitions 5 stUp [] rUp).2 ⟨"up", 50, false⟩ rfl).1 rfl,
   ((claim3_tracker_transitions 5 stDown [] rUp).2 ⟨"down", 50, false⟩ rfl).2
     (by decide)⟩

/-- Counterexample to C4 as stated: a transition out of down into
degraded (not into up) still carries was_down_since = the time the down
state began, where the claim requires null for any transition not ending
in up. -/
theorem claim4_counterexample :
    ∃ inc, (track_incident 5 stDown [] rDeg).2.2 = some inc
      ∧ inc.prev_status = "down"
      ∧ inc.new_status = "degraded"
      ∧ inc.new_status ≠ "up"
      ∧ inc.was_down_since = some 50 :=
  ⟨⟨"https://a.example", "down", "degraded", 100, some 50, none⟩, by decide⟩

/-- Claim C4 amended: on every detected transition the emitted incident's
was_down_since is non-null exactly when the prior status was down —
whatever the new status is — and in that case equals the since timestamp
recorded when the down state began. -/
theorem claim4_down_since (today : ℤ) (st : StateMap) (ilog : PartStore Incident)
    (r : CheckResult) (prev : IncidentState)
    (hprev : stateLookup st r.url = some prev)
    (hne : prev.status ≠ r.status.value) :
    ∃ inc, (track_incident today st ilog r).2.2 = some inc
      ∧ (inc.was_down_since ≠ none ↔ prev.status = "down")
      ∧ (prev.status = "down" → inc.was_down_since = some prev.since) := by
  refine ⟨{ url := r.url, prev_status := prev.status, new_status := r.status.value,
            changed_at := r.checked_at,
            was_down_since := if prev.status = "down" then some prev.since else none,
            error := r.error }, by simp [track_incident, hprev, hne], ?_, ?_⟩
  · by_cases hdown : prev.status = "down" <;> simp [hdown]
  · intro hdown
    simp [hdown]

/-- Witness for C4 at a concrete input: recovery down to up carries
was_down_since = 50, the time the down run began. -/
theorem claim4_down_since_witness :
    stateLookup stDown rUp.url = some ⟨"down", 50, false⟩
    ∧ (("down" : String) ≠ Status.value rUp.status)
    ∧ ∃ inc, (track_incident 5 stDown [] rUp).2.2 = some inc
        ∧ (inc.was_down_since ≠ none ↔ ("down" : String) = "down")
        ∧ (("down" : String) = "down" → inc.was_down_since = some 50) :=
  ⟨rfl, by decide,
   claim4_down_since 5 stDown [] rUp ⟨"down", 50, false⟩ rfl (by decide)⟩

theorem store_lookup_append_same {α : Type} (s : PartStore α) (d : ℤ) (x : α) :
    store_lookup (store_append s d x) d = store_lookup s d ++ [x] := by
  induction s with
  | nil => simp [store_append, store_lookup]
  | cons kv rest ih =>
      obtain ⟨k, cs⟩ := kv
      by_cases hk : k = d
      · simp [store_append, store_lookup, hk]
      · simp [store_append, store_lookup, hk, ih]

theorem store_lookup_append_other {α : Type} (s : PartStore α) (d d' : ℤ) (x : α)
    (h : d' ≠ d) : store_lookup (store_append s d x) d' = store_lookup s d' := by
  have hdd : ¬d = d' := fun he => h he.symm
  induction s with
  | nil => simp [store_append, store_lookup, hdd]
  | cons kv rest ih =>
      obtain ⟨k, cs⟩ := kv
      by_cases hk : k = d
      · subst hk
        simp [store_append, store_lookup, hdd]
      · simp [store_append, store_lookup, hk, ih]

theorem store_lookup_of_no_key {α : Type} (s : PartStore α) (d : ℤ)
    (h : ∀ p ∈ s, p.1 ≠ d) : store_lookup s d = [] := by
  induction s with
  | nil => rfl
  | cons kv rest ih =>
      obtain ⟨k, cs⟩ := kv
      have hk : k ≠ d := h (k, cs) (List.mem_cons_self _ _)
      exact (if_neg hk).trans (ih fun p hp => h p (List.mem_cons_of_mem _ hp))

/-- The url_checks list computed inside calculate_uptime: the windowed
records filtered to one URL. -/
def url_window (store : PartStore StoredCheck) (now : ℤ) (url : String)
    (hours : ℤ) : List StoredCheck :=
  (load_recent_checks store now hours).filter (fun c => c.url = url)

/-- Claim C5: with no records for the URL in the window, calculate_uptime
reports uptime_pct = none and check_count = 0 (and no average or last
check); otherwise it reports uptime_pct = round(up_count/total*100, 2)
where up_count counts only status "up" records (degraded excluded), and
avg_response_ms = the rounded arithmetic mean of response_time_ms over all
records of every status. -/
theorem claim5_uptime_report (store : PartStore StoredCheck) (now : ℤ)
    (url : String) (hours : ℤ) :
    (url_window store now url hours = [] →
      calculate_uptime store now url hours
        = { url := url, uptime_pct := none, check_count := 0
            avg_response_ms := none, last_check := none })
    ∧ (url_window store now url hours ≠ [] →
      calculate_uptime store now url hours
        = { url := url
            uptime_pct := some (round2
              ((((url_window store now url hours).filter
                  (fun c => c.status = "up")).length : ℚ)
                / ((url_window store now url hours).length : ℚ) * 100))
            check_count := (url_window store now url hours).length
            avg_response_ms := some (round2
              (((url_window store now url hours).map
                  (fun c => c.response_time_ms)).sum
                / ((url_window store now url hours).length : ℚ)))
            last_check := (url_window store now url hours).head? }) := by
  constructor
  · intro h
    rw [calculate_uptime]
    split_ifs with hc
    · rfl
    · exact absurd (List.isEmpty_iff.mpr h) hc
  · intro h
    rw [calculate_uptime]
    split_ifs with hc
    · exact absurd (List.isEmpty_iff.mp hc) h
    · rfl

/-- A stored up check for url u at time 100. -/
def sUp : StoredCheck := ⟨"u", "up", some 200, 5, none, 100⟩

/-- A stored degraded check for url u at time 200. -/
def sDeg : StoredCheck := ⟨"u", "degraded", some 200, 4000, none, 200⟩

/-- A stored down check for url u at time 300. -/
def sDown : StoredCheck := ⟨"u", "down", none, 10000, some "Timeout", 300⟩

/-- A day-0 partition holding an up, a degraded and a down check. -/
def storeW : PartStore StoredCheck := [(0, [sUp, sDeg, sDown])]

/-- Witness for C5 at concrete inputs: the empty store has no records for
the URL; storeW has three, so the report carries the rounded percentage,
count 3, and the rounded mean over all three records. -/
theorem claim5_uptime_report_witness :
    calculate_uptime [] 1000 "u" 24
      = { url := "u", uptime_pct := none, check_count := 0
          avg_response_ms := none, last_check := none }
    ∧ calculate_uptime storeW 1000 "u" 24
      = { url := "u"
          uptime_pct := some (round2
            ((((url_window storeW 1000 "u" 24).filter
                (fun c => c.status = "up")).length : ℚ)
              / ((url_window storeW 1000 "u" 24).length : ℚ) * 100))
          check_count := (url_window storeW 1000 "u" 24).length
          avg_response_ms := some (round2
            (((url_window storeW 1000 "u" 24).map
                (fun c => c.response_time_ms)).sum
              / ((url_window storeW 1000 "u" 24).length : ℚ)))
          last_check := (url_window storeW 1000 "u" 24).head? } :=
  ⟨(claim5_uptime_report [] 1000 "u" 24).1 rfl,
   (claim5_uptime_report storeW 1000 "u" 24).2 (by decide)⟩

/-- The record kept by a counterexample store: timestamped 1100, in the
future of the query time 1000, inside partition day 0. -/
def sFuture : StoredCheck := ⟨"u", "up", some 200, 5, none, 1100⟩

def storeFut : PartStore StoredCheck := [(0, [sFuture])]

/-- Counterexample to C6 as stated: querying a 1-hour window at now =
1000 returns the record timestamped 1100, which lies outside
[now - hours, now]; the code only applies the lower cutoff. -/
theorem claim6_counterexample :
    load_recent_checks storeFut 1000 1 = [sFuture]
    ∧ 1000 < sFuture.checked_at := by
  exact ⟨rfl, by decide⟩

/-- Claim C6 amended: load_recent_checks returns exactly the records of
the current date's partition and the immediately preceding date's
partition whose timestamp is at least now - hours (no upper cutoff at now
is applied, so later-stamped records are also returned), sorted by
timestamp descending; a missing partition contributes the empty list. -/
theorem claim6_load_window (store : PartStore StoredCheck) (now hours : ℤ) :
    (load_recent_checks store now hours).Perm
      ((load_checks_for_date store (dateOf now)
        ++ load_checks_for_date store (dateOf (now - 86400))).filter
        (fun c => now - hours * 3600 ≤ c.checked_at))
    ∧ (load_recent_checks store now hours).Sorted laterEq
    ∧ (∀ d : ℤ, (∀ p ∈ store, p.1 ≠ d) → load_checks_for_date store d = []) := by
  refine ⟨?_, List.sorted_insertionSort laterEq _,
    fun d h => store_lookup_of_no_key store d h⟩
  rw [List.filter_append]
  exact List.perm_insertionSort laterEq _

/-- Witness for C6 at concrete inputs: storeW against now = 1000,
hours = 24, and the missing-partition clause at day 7. -/
theorem claim6_load_window_witness :
    (load_recent_checks storeW 1000 24).Perm
      ((load_checks_for_date storeW (dateOf 1000)
        ++ load_checks_for_date storeW (dateOf (1000 - 86400))).filter
        (fun c => 1000 - 24 * 3600 ≤ c.checked_at))
    ∧ (load_recent_checks storeW 1000 24).Sorted laterEq
    ∧ load_checks_for_date storeW 7 = [] :=
  ⟨(claim6_load_window storeW 1000 24).1,
   (claim6_load_window storeW 1000 24).2.1,
   (claim6_load_window storeW 1000 24).2.2 7 (by
     intro p hp
     rcases List.mem_singleton.mp hp with rfl
     decide)⟩

/-- A check result created on day 0 (checked_at = 50). -/
def rOld : CheckResult := ⟨"u", Status.up, some 200, 5, none, 50⟩

/-- Counterexample to C7 as stated: saving a result created on day 0 while
the saving-time date is day 1 writes it into partition 1, not into the
partition named by the result's own creation date 0, which stays empty. -/
theorem claim7_counterexample :
    dateOf rOld.checked_at = 0
    ∧ (0 : ℤ) ≠ 1
    ∧ load_checks_for_date (save_check 1 [] rOld) 0 = []
    ∧ load_checks_for_date (save_check 1 [] rOld) 1 = [serialize_check rOld] :=
  ⟨rfl, by decide, rfl, rfl⟩

/-- Claim C7 amended: save_checks writes every result of the batch, in
arrival order, into the partition named by the date current at the moment
of saving (date.today()), leaving every other partition unchanged; this
is the result's own creation date only when the two coincide. -/
theorem claim7_append_partition (today : ℤ) (store : PartStore StoredCheck)
    (results : List CheckResult) :
    load_checks_for_date (save_checks today store results) today
      = load_checks_for_date store today ++ results.map serialize_check
    ∧ ∀ d : ℤ, d ≠ today →
        load_checks_for_date (save_checks today store results) d
          = load_checks_for_date store d := by
  induction results generalizing store with
  | nil => simp [save_checks, load_checks_for_date]
  | cons r rest ih =>
      have hstep : save_checks today store (r :: rest)
          = save_checks today (save_check today store r) rest := rfl
      constructor
      · rw [hstep, (ih (save_check today store r)).1]
        show store_lookup (store_append store today (serialize_check r)) today
            ++ List.map serialize_check rest = _
        rw [store_lookup_append_same]
        simp [load_checks_for_date]
      · intro d hd
        rw [hstep, (ih (save_check today store r)).2 d hd]
        exact store_lookup_append_other store today d (serialize_check r) hd

/-- Witness for C7 at concrete inputs: one result saved on day 1 lands at
the end of partition 1 and partition 0 is untouched. -/
theorem claim7_append_partition_witness :
    load_checks_for_date (save_checks 1 [] [rOld]) 1
      = load_checks_for_date ([] : PartStore StoredCheck) 1
        ++ [rOld].map serialize_check
    ∧ load_checks_for_date (save_checks 1 [] [rOld]) 0
      = load_checks_for_date ([] : PartStore StoredCheck) 0 :=
  ⟨(claim7_append_partition 1 [] [rOld]).1,
   (claim7_append_partition 1 [] [rOld]).2 0 (by decide)⟩

/-- Claim C8: appending a CheckResult and immediately loading the current
day's partition returns, as its last record, a stored record whose fields
are identical to the original's: url, serialized status, status code,
response time, error and timestamp. -/
theorem claim8_round_trip (today : ℤ) (store : PartStore StoredCheck)
    (r : CheckResult) :
    ∃ s : StoredCheck,
      (load_checks_for_date (save_check today store r) today).getLast? = some s
      ∧ s.url = r.url ∧ s.status = r.status.value ∧ s.status_code = r.status_code
      ∧ s.response_time_ms = r.response_time_ms ∧ s.error = r.error
      ∧ s.checked_at = r.checked_at := by
  refine ⟨serialize_check r, ?_, rfl, rfl, rfl, rfl, rfl, rfl⟩
  show (store_lookup (store_append store today (serialize_check r)) today).getLast?
      = some (serialize_check r)
  rw [store_lookup_append_same]
  simp

/-- The incident dict built on a transition from prev to the status of r
(the body of the status-changed branch of track_incident). -/
def transition_incident (prev : IncidentState) (r : CheckResult) : Incident :=
  { url := r.url
    prev_status := prev.status
    new_status := r.status.value
    changed_at := r.checked_at
    was_down_since := if prev.status = "down" then some prev.since else none
    error := r.error }

theorem track_incident_first (today : ℤ) (st : StateMap) (ilog : PartStore Incident)
    (r : CheckResult) (hlook : stateLookup st r.url = none) :
    track_incident today st ilog r
      = (stateInsert st r.url ⟨r.status.value, r.checked_at, false⟩, ilog, none) := by
  simp [track_incident, hlook]

theorem track_incident_same (today : ℤ) (st : StateMap) (ilog : PartStore Incident)
    (r : CheckResult) (prev : IncidentState)
    (hlook : stateLookup st r.url = some prev)
    (heq : prev.status = r.status.value) :
    track_incident today st ilog r = (st, ilog, none) := by
  simp [track_incident, hlook, heq]

theorem track_incident_change (today : ℤ) (st : StateMap) (ilog : PartStore Incident)
    (r : CheckResult) (prev : IncidentState)
    (hlook : stateLookup st r.url = some prev)
    (hne : ¬prev.status = r.status.value) :
    track_incident today st ilog r
      = (stateInsert st r.url ⟨r.status.value, r.checked_at, true⟩,
         store_append ilog today (transition_incident prev r),
         some (transition_incident prev r)) := by
  simp [track_incident, hlook, hne, transition_incident]

theorem run_checks_incidents_trace (today : ℤ) (notifier : Incident → Bool)
    (st : StateMap) (ilog : PartStore Incident) (results : List CheckResult) :
    (run_checks_incidents today notifier st ilog results).2.2
      = (emitted_incidents today st ilog results).flatMap
          (fun inc => [LogEvent.persist inc, LogEvent.notify inc (notifier inc)]) := by
  induction results generalizing st ilog with
  | nil => rfl
  | cons r rest ih =>
      rcases htrack : track_incident today st ilog r with ⟨st2, ilog2, inc?⟩
      cases inc? with
      | none =>
          simp only [run_checks_incidents, emitted_incidents, htrack]
          exact ih st2 ilog2
      | some inc =>
          simp only [run_checks_incidents, emitted_incidents, htrack,
            List.flatMap_cons, List.cons_append, List.nil_append]
          simp [ih st2 ilog2]

theorem run_checks_incidents_log (today : ℤ) (notifier : Incident → Bool)
    (st : StateMap) (ilog : PartStore Incident) (results : List CheckResult) :
    store_lookup (run_checks_incidents today notifier st ilog results).2.1 today
      = store_lookup ilog today ++ emitted_incidents today st ilog results := by
  induction results generalizing st ilog with
  | nil => simp [run_checks_incidents, emitted_incidents]
  | cons r rest ih =>
      cases hlook : stateLookup st r.url with
      | none =>
          have htrack := track_incident_first today st ilog r hlook
          simp only [run_checks_incidents, emitted_incidents, htrack]
          exact ih _ ilog
      | some prev =>
          by_cases heq : prev.status = r.status.value
          · have htrack := track_incident_same today st ilog r prev hlook heq
            simp only [run_checks_incidents, emitted_incidents, htrack]
            exact ih st ilog
          · have htrack := track_incident_change today st ilog r prev hlook heq
            simp only [run_checks_incidents, emitted_incidents, htrack]
            rw [ih _ (store_append ilog today (transition_incident prev r)),
              store_lookup_append_same]
            simp

theorem run_checks_incidents_notifier_blind (today : ℤ)
    (n1 n2 : Incident → Bool) (st : StateMap) (ilog : PartStore Incident)
    (results : List CheckResult) :
    (run_checks_incidents today n1 st ilog results).1
      = (run_checks_incidents today n2 st ilog results).1
    ∧ (run_checks_incidents today n1 st ilog results).2.1
      = (run_checks_incidents today n2 st ilog results).2.1 := by
  induction results generalizing st ilog with
  | nil => exact ⟨rfl, rfl⟩
  | cons r rest ih =>
      rcases htrack : track_incident today st ilog r with ⟨st2, ilog2, inc?⟩
      cases inc? <;> simp only [run_checks_incidents, htrack] <;> exact ih st2 ilog2

/-- Claim C9: in a check cycle, each emitted incident's persist (the file
append inside track_incident) precedes the notify handoff in the side
effect trace; all emitted incidents end up appended to today's incident
partition; and the final tracker state and incident store are the same
for any two notifier behaviors, so a notification failure cannot remove,
alter, or prevent the persisted record. -/
theorem claim9_persist_before_notify (today : ℤ)
    (notifier notifier2 : Incident → Bool) (st : StateMap)
    (ilog : PartStore Incident) (results : List CheckResult) :
    (run_checks_incidents today notifier st ilog results).2.2
      = (emitted_incidents today st ilog results).flatMap
          (fun inc => [LogEvent.persist inc, LogEvent.notify inc (notifier inc)])
    ∧ store_lookup (run_checks_incidents today notifier st ilog results).2.1 today
      = store_lookup ilog today ++ emitted_incidents today st ilog results
    ∧ (run_checks_incidents today notifier st ilog results).1
      = (run_checks_incidents today notifier2 st ilog results).1
    ∧ (run_checks_incidents today notifier st ilog results).2.1
      = (run_checks_incidents today notifier2 st ilog results).2.1 :=
  ⟨run_checks_incidents_trace today notifier st ilog results,
   run_checks_incidents_log today notifier st ilog results,
   (run_checks_incidents_notifier_blind today notifier notifier2 st ilog results).1,
   (run_checks_incidents_notifier_blind today notifier notifier2 st ilog results).2⟩

/-- Claim C10: check_all returns one CheckResult per input endpoint and
the i-th result is the probe of the i-th endpoint, so input order is
preserved. -/
theorem claim10_check_all_order (endpoints : List Endpoint)
    (world : ℕ → ProbeOutcome) (now : ℤ) :
    (check_all endpoints world now).length = endpoints.length
    ∧ ∀ (i : ℕ) (h : i < endpoints.length),
        (check_all endpoints world now)[i]?
          = some (check_endpoint endpoints[i] (world i) now) := by
  refine ⟨by simp [check_all], fun i h => ?_⟩
  rw [check_all, List.getElem?_zipWith']
  simp [List.getElem?_eq_getElem, h, List.getElem_range]

/-- The HTTP world of the C10 witness: every probe times out after 1 ms. -/
def worldT : ℕ → ProbeOutcome := fun _ => ProbeOutcome.timeout 1

/-- Witness for C10 at a concrete input: a single endpoint yields a
single result, sitting at index 0. -/
theorem claim10_check_all_order_witness :
    (check_all [epA] worldT 3).length = [epA].length
    ∧ (check_all [epA] worldT 3)[0]? = some (check_endpoint epA (worldT 0) 3) :=
  ⟨(claim10_check_all_order [epA] worldT 3).1,
   (claim10_check_all_order [epA] worldT 3).2 0 (by decide)⟩

end UptimePing
